import Mathlib

/-!
Verification of the whispero PDCA/TTFU tracker workflow core.

This file gives a shallow embedding of the TTFU lifecycle and review
workflow route handlers (TTFU creation with auto-assignment, TTFU status
update, TTFU detail read, evidence submission, review submission) as pure
Lean functions over an explicit database state, and proves or refutes the
frozen specification claims about them.

The embedding follows the TypeScript route handlers line by line:
- evidence POST and review POST (the ttfu evidence and review routes),
- ttfu detail GET and status PATCH,
- ttfu collection POST (creation with the auto-assignment heuristic),
together with the Prisma schema enumerations (GlobalRole, TtfuStatus,
EvidenceType, ReviewStatus) and the relevant columns of the User, TTFU,
Evidence and Review models.
-/

namespace Whispero

/-- Global role of a user, from the Prisma GlobalRole enum. -/
inductive GlobalRole
  | ADMIN
  | SPV
  | REVIEWER
  | USER
deriving DecidableEq, Repr

/-- Lifecycle status of a TTFU, from the Prisma TtfuStatus enum. -/
inductive TtfuStatus
  | OPEN
  | IN_PROGRESS
  | DONE
  | REJECTED
deriving DecidableEq, Repr

/-- Kind of an evidence record, from the Prisma EvidenceType enum. -/
inductive EvidenceType
  | link
  | file
deriving DecidableEq, Repr

/-- Decision of a review, from the Prisma ReviewStatus enum. -/
inductive ReviewStatus
  | approved
  | rejected
  | needs_revision
deriving DecidableEq, Repr

/-- A user row (the columns the workflow reads). -/
structure User where
  id : String
  globalRole : GlobalRole
deriving DecidableEq, Repr

/-- A TTFU row. -/
structure TTFU where
  id : String
  meetingId : String
  title : String
  description : Option String
  assigneeId : String
  reviewerId : String
  status : TtfuStatus
  dueDate : Option String
deriving DecidableEq, Repr

/-- An evidence row.  createdAt is modelled as a natural-number timestamp
drawn from a monotone clock in the database state. -/
structure Evidence where
  id : String
  ttfuId : String
  type : EvidenceType
  url : Option String
  filePath : Option String
  description : Option String
  submittedById : String
  createdAt : Nat
deriving DecidableEq, Repr

/-- A review row. -/
structure Review where
  id : String
  evidenceId : String
  reviewerId : String
  status : ReviewStatus
  comment : Option String
deriving DecidableEq, Repr

/-- The persistent store: the four tables the workflow touches, plus a
monotone clock used for fresh ids and createdAt timestamps. -/
structure DB where
  users : List User
  ttfus : List TTFU
  evidences : List Evidence
  reviews : List Review
  nextTime : Nat
deriving Repr

/-- The authenticated session the handlers read (user id and global role). -/
structure Session where
  userId : String
  globalRole : GlobalRole
deriving DecidableEq, Repr

/-! ## JavaScript value conventions

The handlers use JavaScript truthiness on optional strings: undefined and
the empty string are falsy.  An Option String models string-or-undefined. -/

/-- JavaScript truthiness of a string-or-undefined value: undefined and the
empty string are falsy. -/
def jsTruthy : Option String → Bool
  | none => false
  | some s => s ≠ ""

/-- The JavaScript expression a or-else b on string-or-undefined values. -/
def jsOr (a b : Option String) : Option String :=
  if jsTruthy a then a else b

/-- The JavaScript expression v or-else null, used when writing optional
columns: a falsy value is stored as null. -/
def jsOrNull (a : Option String) : Option String :=
  if jsTruthy a then a else none

/-- Scanner for the tail of a url candidate: consumes alphabetic scheme
characters until the separator symbols colon-slash-slash, which must be
followed by a nonempty remainder. -/
def validUrlTail : List Char → Bool
  | ':' :: '/' :: '/' :: rest => !rest.isEmpty
  | c :: cs => c.isAlpha && validUrlTail cs
  | [] => false

/-- Model of the zod string url validator used by the evidence schema
(z.string().url(), third-party library code): accepts strings of the form
scheme://rest with a nonempty alphabetic scheme and nonempty remainder, and
rejects everything else.  Only the accept/reject split matters to the
claims, never the exact boundary of well-formedness. -/
def isValidUrl (s : String) : Bool :=
  match s.data with
  | c :: cs => c.isAlpha && validUrlTail cs
  | [] => false

/-! ## Request bodies and zod schema parsing

A raw body models the JSON payload after JSON.parse; the parse functions
model the zod schema parse calls, returning none exactly when zod would
throw a ZodError. -/

/-- Raw body of the evidence POST. -/
structure CreateEvidenceBody where
  type : String
  url : Option String
  filePath : Option String
  description : Option String
deriving DecidableEq, Repr

/-- Raw body of the review POST. -/
structure CreateReviewBody where
  status : String
  comment : Option String
deriving DecidableEq, Repr

/-- Raw body of the ttfu status PATCH. -/
structure UpdateStatusBody where
  status : String
  notes : Option String
deriving DecidableEq, Repr

/-- Raw body of the ttfu POST. -/
structure CreateTTFUBody where
  meetingId : String
  title : String
  description : Option String
  assigneeId : Option String
  reviewerId : Option String
  dueDate : Option String
deriving DecidableEq, Repr

/-- Decode the evidence type enum of the zod schema. -/
def evidenceTypeOfString : String → Option EvidenceType
  | "link" => some EvidenceType.link
  | "file" => some EvidenceType.file
  | _ => none

/-- Decode the review status enum of the zod schema. -/
def reviewStatusOfString : String → Option ReviewStatus
  | "approved" => some ReviewStatus.approved
  | "rejected" => some ReviewStatus.rejected
  | "needs_revision" => some ReviewStatus.needs_revision
  | _ => none

/-- Decode the ttfu status enum of the PATCH zod schema. -/
def ttfuStatusOfString : String → Option TtfuStatus
  | "OPEN" => some TtfuStatus.OPEN
  | "IN_PROGRESS" => some TtfuStatus.IN_PROGRESS
  | "DONE" => some TtfuStatus.DONE
  | "REJECTED" => some TtfuStatus.REJECTED
  | _ => none

/-- Parsed evidence payload (createEvidenceSchema). -/
structure EvidenceData where
  type : EvidenceType
  url : Option String
  filePath : Option String
  description : Option String
deriving DecidableEq, Repr

/-- createEvidenceSchema.parse: the type must be in the enum and the url,
when present, must pass the url validator. -/
def parseCreateEvidence (b : CreateEvidenceBody) : Option EvidenceData :=
  match evidenceTypeOfString b.type with
  | none => none
  | some t =>
    match b.url with
    | some u =>
      if isValidUrl u then
        some { type := t, url := some u, filePath := b.filePath,
               description := b.description }
      else none
    | none =>
      some { type := t, url := none, filePath := b.filePath,
             description := b.description }

/-- Parsed review payload (createReviewSchema). -/
structure ReviewData where
  status : ReviewStatus
  comment : Option String
deriving DecidableEq, Repr

/-- createReviewSchema.parse: the status must be in the enum. -/
def parseCreateReview (b : CreateReviewBody) : Option ReviewData :=
  match reviewStatusOfString b.status with
  | none => none
  | some st => some { status := st, comment := b.comment }

/-- Parsed status-update payload (updateSchema of the PATCH handler). -/
structure UpdateStatusData where
  status : TtfuStatus
  notes : Option String
deriving DecidableEq, Repr

/-- updateSchema.parse: the status must be in the four-value enum. -/
def parseUpdateStatus (b : UpdateStatusBody) : Option UpdateStatusData :=
  match ttfuStatusOfString b.status with
  | none => none
  | some st => some { status := st, notes := b.notes }

/-- Parsed ttfu-creation payload (createTTFUSchema). -/
structure TTFUData where
  meetingId : String
  title : String
  description : Option String
  assigneeId : Option String
  reviewerId : Option String
  dueDate : Option String
deriving DecidableEq, Repr

/-- createTTFUSchema.parse: the title must be nonempty (z.string().min(1)). -/
def parseCreateTTFU (b : CreateTTFUBody) : Option TTFUData :=
  if b.title = "" then none
  else some { meetingId := b.meetingId, title := b.title,
              description := b.description, assigneeId := b.assigneeId,
              reviewerId := b.reviewerId, dueDate := b.dueDate }

/-! ## Responses -/

/-- The distinct error responses of the five handlers, one constructor per
return site. -/
inductive ApiError
  | unauthorized
  | validationError
  | onlyReviewersCanReview
  | notAssignedReviewer
  | ttfuNotFound
  | evidenceNotFound
  | urlRequired
  | filePathRequired
  | alreadyReviewed
  | noValidAssigneeOrReviewer
  | internalError
deriving DecidableEq, Repr

/-- HTTP status code attached to each error response in the handlers.  The
duplicate-review rejection is returned with status 400; the specification
classifies it as the conflict error of the error taxonomy. -/
def ApiError.httpStatus : ApiError → Nat
  | .unauthorized => 401
  | .validationError => 400
  | .onlyReviewersCanReview => 403
  | .notAssignedReviewer => 403
  | .ttfuNotFound => 404
  | .evidenceNotFound => 404
  | .urlRequired => 400
  | .filePathRequired => 400
  | .alreadyReviewed => 400
  | .noValidAssigneeOrReviewer => 400
  | .internalError => 500

/-- Response envelope: success with data, or an error. -/
inductive ApiResult (α : Type)
  | ok (data : α)
  | err (e : ApiError)
deriving DecidableEq, Repr

/-! ## Database lookups (prisma queries) -/

/-- prisma.tTFU.findUnique on the id column. -/
def findTTFU (db : DB) (id : String) : Option TTFU :=
  db.ttfus.find? (fun t => t.id == id)

/-- prisma.evidence.findUnique on the id column. -/
def findEvidence (db : DB) (id : String) : Option Evidence :=
  db.evidences.find? (fun e => e.id == id)

/-- prisma.user.findUnique on the id column. -/
def findUser (db : DB) (id : String) : Option User :=
  db.users.find? (fun u => u.id == id)

/-- Whether a user has global role REVIEWER or ADMIN (the where clause of
the auto-assignment reviewer lookup). -/
def isReviewerOrAdmin (u : User) : Bool :=
  u.globalRole == GlobalRole.REVIEWER || u.globalRole == GlobalRole.ADMIN

/-- prisma.user.findFirst with globalRole in [REVIEWER, ADMIN]. -/
def findFirstReviewerOrAdmin (db : DB) : Option User :=
  db.users.find? isReviewerOrAdmin

/-- prisma.review.findFirst with the given evidenceId and reviewerId (the
duplicate-review pre-check). -/
def findExistingReview (db : DB) (evidenceId reviewerId : String) : Option Review :=
  db.reviews.find? (fun r => r.evidenceId == evidenceId && r.reviewerId == reviewerId)

/-! ## Operations (route handlers) -/

/-- The evidence row built by the insert of the evidence POST: fresh id and
timestamp from the clock, optional columns stored as value-or-null, the
submitter taken from the session. -/
def mkEvidence (db : DB) (ttfuId submitterId : String) (v : EvidenceData) : Evidence :=
  { id := toString db.nextTime
    ttfuId := ttfuId
    type := v.type
    url := jsOrNull v.url
    filePath := jsOrNull v.filePath
    description := jsOrNull v.description
    submittedById := submitterId
    createdAt := db.nextTime }

/-- The review row built by the insert of the review POST. -/
def mkReview (db : DB) (evidenceId reviewerId : String) (v : ReviewData) : Review :=
  { id := toString db.nextTime
    evidenceId := evidenceId
    reviewerId := reviewerId
    status := v.status
    comment := jsOrNull v.comment }

/-- The TTFU row built by the insert of the ttfu POST: status defaults to
OPEN per the schema, the due date is stored only when truthy. -/
def mkTTFU (db : DB) (v : TTFUData) (assigneeId reviewerId : String) : TTFU :=
  { id := toString db.nextTime
    meetingId := v.meetingId
    title := v.title
    description := v.description
    assigneeId := assigneeId
    reviewerId := reviewerId
    status := TtfuStatus.OPEN
    dueDate := if jsTruthy v.dueDate then v.dueDate else none }

/-- POST of the evidence route: submit evidence under a TTFU.
Order of checks as in the handler: session, schema parse, TTFU existence,
kind-specific required field; then the insert, which stores each optional
column as value-or-null. -/
def submitEvidence (session : Option Session) (ttfuId : String)
    (body : CreateEvidenceBody) (db : DB) : ApiResult Evidence × DB :=
  match session with
  | none => (ApiResult.err ApiError.unauthorized, db)
  | some s =>
    match parseCreateEvidence body with
    | none => (ApiResult.err ApiError.validationError, db)
    | some v =>
      match findTTFU db ttfuId with
      | none => (ApiResult.err ApiError.ttfuNotFound, db)
      | some _ =>
        if v.type == EvidenceType.link && !(jsTruthy v.url) then
          (ApiResult.err ApiError.urlRequired, db)
        else if v.type == EvidenceType.file && !(jsTruthy v.filePath) then
          (ApiResult.err ApiError.filePathRequired, db)
        else
          let e : Evidence := mkEvidence db ttfuId s.userId v
          (ApiResult.ok e,
           { db with evidences := e :: db.evidences, nextTime := db.nextTime + 1 })

/-- POST of the review route: submit a review on an evidence record.
Order of checks as in the handler: session, schema parse, global-role gate,
evidence existence (with its parent TTFU), assigned-reviewer gate,
duplicate-review pre-check; then the insert.  The parent TTFU lookup can
only miss if a foreign key is broken, which the store prevents; that branch
maps to the catch-all internal error. -/
def submitReview (session : Option Session) (evidenceId : String)
    (body : CreateReviewBody) (db : DB) : ApiResult Review × DB :=
  match session with
  | none => (ApiResult.err ApiError.unauthorized, db)
  | some s =>
    match parseCreateReview body with
    | none => (ApiResult.err ApiError.validationError, db)
    | some v =>
      if s.globalRole != GlobalRole.REVIEWER && s.globalRole != GlobalRole.ADMIN then
        (ApiResult.err ApiError.onlyReviewersCanReview, db)
      else
        match findEvidence db evidenceId with
        | none => (ApiResult.err ApiError.evidenceNotFound, db)
        | some e =>
          match findTTFU db e.ttfuId with
          | none => (ApiResult.err ApiError.internalError, db)
          | some t =>
            if t.reviewerId != s.userId && s.globalRole != GlobalRole.ADMIN then
              (ApiResult.err ApiError.notAssignedReviewer, db)
            else
              match findExistingReview db evidenceId s.userId with
              | some _ => (ApiResult.err ApiError.alreadyReviewed, db)
              | none =>
                let r : Review := mkReview db evidenceId s.userId v
                (ApiResult.ok r,
                 { db with reviews := r :: db.reviews, nextTime := db.nextTime + 1 })

/-- PATCH of the ttfu detail route: overwrite the status of a TTFU.
Order of checks as in the handler: session, schema parse, TTFU existence;
then the in-place update of the status column. -/
def updateTTFUStatus (session : Option Session) (ttfuId : String)
    (body : UpdateStatusBody) (db : DB) : ApiResult TTFU × DB :=
  match session with
  | none => (ApiResult.err ApiError.unauthorized, db)
  | some _ =>
    match parseUpdateStatus body with
    | none => (ApiResult.err ApiError.validationError, db)
    | some v =>
      match findTTFU db ttfuId with
      | none => (ApiResult.err ApiError.ttfuNotFound, db)
      | some t =>
        let t' : TTFU := { t with status := v.status }
        (ApiResult.ok t',
         { db with ttfus :=
             db.ttfus.map (fun u => if u.id == ttfuId then { u with status := v.status } else u) })

/-- Ordering used by the evidence list of the detail read: createdAt
descending (newest first). -/
def newerFirst (a b : Evidence) : Prop :=
  b.createdAt ≤ a.createdAt

instance : DecidableRel newerFirst :=
  fun a b => inferInstanceAs (Decidable (b.createdAt ≤ a.createdAt))

/-- The data of the detail read: the TTFU row and its evidence list. -/
structure TTFUDetail where
  ttfu : TTFU
  evidences : List Evidence
deriving DecidableEq, Repr

/-- GET of the ttfu detail route: the TTFU with its evidences ordered by
createdAt descending.  Read-only, so only the result is returned. -/
def getTTFUDetail (session : Option Session) (ttfuId : String) (db : DB) :
    ApiResult TTFUDetail :=
  match session with
  | none => ApiResult.err ApiError.unauthorized
  | some _ =>
    match findTTFU db ttfuId with
    | none => ApiResult.err ApiError.ttfuNotFound
    | some t =>
      ApiResult.ok
        { ttfu := t
          evidences :=
            List.insertionSort newerFirst
              (db.evidences.filter (fun e => e.ttfuId == ttfuId)) }

/-- POST of the ttfu collection route: create a TTFU, applying the
auto-assignment heuristic when the assignee or the reviewer is missing.
For a SPV or USER creator the creator becomes the assignee and the first
user with role REVIEWER or ADMIN becomes the reviewer, falling back to the
creator when no such user exists; otherwise the missing sides default to
the creator.  A final truthiness check rejects empty ids. -/
def createTTFU (session : Option Session) (body : CreateTTFUBody) (db : DB) :
    ApiResult TTFU × DB :=
  match session with
  | none => (ApiResult.err ApiError.unauthorized, db)
  | some s =>
    match parseCreateTTFU body with
    | none => (ApiResult.err ApiError.validationError, db)
    | some v =>
      let currentUser := findUser db s.userId
      let ids : Option String × Option String :=
        if !(jsTruthy v.assigneeId) || !(jsTruthy v.reviewerId) then
          match currentUser with
          | some cu =>
            if cu.globalRole == GlobalRole.SPV || cu.globalRole == GlobalRole.USER then
              (some cu.id,
               jsOr (Option.map User.id (findFirstReviewerOrAdmin db)) (some cu.id))
            else
              (jsOr v.assigneeId (jsOr (some cu.id) (some "")),
               jsOr v.reviewerId (jsOr (some cu.id) (some "")))
          | none =>
            (jsOr v.assigneeId (jsOr none (some "")),
             jsOr v.reviewerId (jsOr none (some "")))
        else (v.assigneeId, v.reviewerId)
      if !(jsTruthy ids.1) || !(jsTruthy ids.2) then
        (ApiResult.err ApiError.noValidAssigneeOrReviewer, db)
      else
        let t : TTFU := mkTTFU db v (ids.1.getD "") (ids.2.getD "")
        (ApiResult.ok t,
         { db with ttfus := t :: db.ttfus, nextTime := db.nextTime + 1 })

/-! ## Result projections used in statements -/

/-- Evidence list of a detail read, empty on error. -/
def detailEvidences (r : ApiResult TTFUDetail) : List Evidence :=
  match r with
  | ApiResult.ok d => d.evidences
  | ApiResult.err _ => []

/-- Status of the TTFU returned by a detail read, none on error. -/
def detailStatus (r : ApiResult TTFUDetail) : Option TtfuStatus :=
  match r with
  | ApiResult.ok d => some d.ttfu.status
  | ApiResult.err _ => none

/-! ## Sample data used by witnesses and counterexamples -/

/-- A user directory with one user per global role. -/
def sampleUsers : List User :=
  [ { id := "admin1", globalRole := GlobalRole.ADMIN },
    { id := "spv1", globalRole := GlobalRole.SPV },
    { id := "rev1", globalRole := GlobalRole.REVIEWER },
    { id := "user1", globalRole := GlobalRole.USER } ]

/-- A TTFU assigned to user1 with rev1 as designated reviewer. -/
def sampleTTFU : TTFU :=
  { id := "t1", meetingId := "m1", title := "Prepare minutes",
    description := none, assigneeId := "user1", reviewerId := "rev1",
    status := TtfuStatus.OPEN, dueDate := none }

/-- A link evidence on sampleTTFU submitted by user1. -/
def sampleEvidence : Evidence :=
  { id := "e1", ttfuId := "t1", type := EvidenceType.link,
    url := some "https://example.com/doc", filePath := none,
    description := none, submittedById := "user1", createdAt := 1 }

/-- A base store: the four users, one TTFU, one evidence, no review. -/
def db0 : DB :=
  { users := sampleUsers, ttfus := [sampleTTFU],
    evidences := [sampleEvidence], reviews := [], nextTime := 5 }

/-- db0 after rev1 already reviewed e1. -/
def db1 : DB :=
  { db0 with
      reviews := [ { id := "r1", evidenceId := "e1", reviewerId := "rev1",
                     status := ReviewStatus.approved, comment := none } ],
      nextTime := 6 }

/-- Session of the REVIEWER-role user rev1. -/
def sessRev : Session := { userId := "rev1", globalRole := GlobalRole.REVIEWER }

/-- Session of the ADMIN-role user admin1. -/
def sessAdmin : Session := { userId := "admin1", globalRole := GlobalRole.ADMIN }

/-- Session of the USER-role user user1. -/
def sessUser : Session := { userId := "user1", globalRole := GlobalRole.USER }

/-- Session of the SPV-role user spv1. -/
def sessSpv : Session := { userId := "spv1", globalRole := GlobalRole.SPV }

/-- A valid review payload. -/
def bodyApproved : CreateReviewBody := { status := "approved", comment := none }

/-- A creation payload with no assignee and no reviewer given. -/
def bodyPlainTTFU : CreateTTFUBody :=
  { meetingId := "m1", title := "Follow up", description := none,
    assigneeId := none, reviewerId := none, dueDate := none }

/-- The parsed form of bodyPlainTTFU. -/
def plainTTFUData : TTFUData :=
  { meetingId := "m1", title := "Follow up", description := none,
    assigneeId := none, reviewerId := none, dueDate := none }

/-- A directory holding only the SPV-role user. -/
def dbOnlySpv : DB :=
  { users := [ { id := "spv1", globalRole := GlobalRole.SPV } ],
    ttfus := [], evidences := [], reviews := [], nextTime := 0 }

/-- A directory holding only the USER-role user. -/
def dbOnlyUser : DB :=
  { users := [ { id := "user1", globalRole := GlobalRole.USER } ],
    ttfus := [], evidences := [], reviews := [], nextTime := 0 }

/-! ## Shared lemmas -/

/-- The duplicate-review pre-check comes back empty exactly when no stored
review has the given evidence and reviewer ids. -/
theorem findExistingReview_eq_none (db : DB) (eid uid : String)
    (h : ∀ r ∈ db.reviews, ¬(r.evidenceId = eid ∧ r.reviewerId = uid)) :
    findExistingReview db eid uid = none := by
  unfold findExistingReview
  rw [List.find?_eq_none]
  intro r hr
  simpa using h r hr

/-- Successful review submission: with an authenticated authorized caller,
a valid payload, an existing evidence with its parent TTFU, the
assigned-reviewer gate passed and no prior review by the caller on this
evidence, the handler appends exactly the built review row. -/
theorem submitReview_ok (s : Session) (eid : String) (body : CreateReviewBody)
    (db : DB) (v : ReviewData) (e : Evidence) (t : TTFU)
    (hparse : parseCreateReview body = some v)
    (hrole : s.globalRole = GlobalRole.REVIEWER ∨ s.globalRole = GlobalRole.ADMIN)
    (he : findEvidence db eid = some e)
    (ht : findTTFU db e.ttfuId = some t)
    (hrev : t.reviewerId = s.userId ∨ s.globalRole = GlobalRole.ADMIN)
    (hfresh : ∀ r ∈ db.reviews, ¬(r.evidenceId = eid ∧ r.reviewerId = s.userId)) :
    submitReview (some s) eid body db =
      (ApiResult.ok (mkReview db eid s.userId v),
       { db with reviews := mkReview db eid s.userId v :: db.reviews,
                 nextTime := db.nextTime + 1 }) := by
  have hnone : findExistingReview db eid s.userId = none :=
    findExistingReview_eq_none db eid s.userId hfresh
  have hrole1 : (s.globalRole != GlobalRole.REVIEWER
      && s.globalRole != GlobalRole.ADMIN) = false := by
    rcases hrole with h | h <;> simp [h]
  have hrev1 : (t.reviewerId != s.userId
      && s.globalRole != GlobalRole.ADMIN) = false := by
    rcases hrev with h | h <;> simp [h]
  simp [submitReview, hparse, hrole1, he, ht, hrev1, hnone]

/-- After the status update, looking the TTFU up again finds the row with
the overwritten status. -/
theorem findTTFU_after_update (db : DB) (tid : String) (st : TtfuStatus) (t : TTFU)
    (h : findTTFU db tid = some t) :
    findTTFU
      { db with ttfus :=
          db.ttfus.map (fun u => if u.id == tid then { u with status := st } else u) }
      tid = some { t with status := st } := by
  unfold findTTFU at h ⊢
  have ht := List.find?_some h
  simp only at ht
  dsimp only
  rw [List.find?_map]
  have hpf : ((fun u : TTFU => u.id == tid) ∘
      (fun u : TTFU => if u.id == tid then { u with status := st } else u)) =
      (fun u : TTFU => u.id == tid) := by
    funext u
    by_cases hu : u.id = tid <;> simp [hu]
  rw [hpf, h, Option.map_some']
  simp [ht]

/-- Inserting an element at least as new as every element of a pool puts it
at the front of the ordered insert. -/
theorem orderedInsert_newest (x : Evidence) (l : List Evidence)
    (h : ∀ y ∈ l, newerFirst x y) :
    List.orderedInsert newerFirst x l = x :: l := by
  cases l with
  | nil => rfl
  | cons a tl =>
    have : newerFirst x a := h a (List.mem_cons_self a tl)
    simp [List.orderedInsert, this]

/-- Sorting newest-first after prepending a strictly newest element keeps
that element at the head. -/
theorem insertionSort_newest (x : Evidence) (l : List Evidence)
    (h : ∀ y ∈ l, newerFirst x y) :
    List.insertionSort newerFirst (x :: l) =
      x :: List.insertionSort newerFirst l := by
  have hmem : ∀ y ∈ List.insertionSort newerFirst l, newerFirst x y := by
    intro y hy
    exact h y ((List.perm_insertionSort newerFirst l).mem_iff.mp hy)
  rw [List.insertionSort]
  exact orderedInsert_newest x _ hmem

/-- A string accepted by the url validator is nonempty. -/
theorem isValidUrl_ne_empty (u : String) (h : isValidUrl u = true) : u ≠ "" := by
  intro he
  subst he
  exact absurd h (by decide)

/-- Parsing an evidence body keeps the url, file path and description of
the raw body and only decodes the type. -/
theorem parseCreateEvidence_fields (b : CreateEvidenceBody) (v : EvidenceData)
    (h : parseCreateEvidence b = some v) :
    v.url = b.url ∧ v.filePath = b.filePath ∧
      evidenceTypeOfString b.type = some v.type := by
  unfold parseCreateEvidence at h
  rcases he : evidenceTypeOfString b.type with _ | t0 <;> rw [he] at h
  · cases h
  · rcases hu : b.url with _ | u <;> rw [hu] at h
    · have h' : some ({ type := t0
                        url := none
                        filePath := b.filePath
                        description := b.description } : EvidenceData) = some v := h
      cases h'
      exact ⟨rfl, rfl, rfl⟩
    · have h' : (if isValidUrl u then
            some ({ type := t0
                    url := some u
                    filePath := b.filePath
                    description := b.description } : EvidenceData)
            else none) = some v := h
      by_cases hv : isValidUrl u = true
      · rw [if_pos hv] at h'
        cases h'
        exact ⟨rfl, rfl, rfl⟩
      · rw [if_neg hv] at h'
        cases h'

/-- A truthy optional string survives the value-or-null write as a present
value. -/
theorem jsOrNull_isSome (o : Option String) (h : jsTruthy o = true) :
    (jsOrNull o).isSome = true := by
  unfold jsOrNull
  rw [if_pos h]
  cases o
  · cases h
  · rfl

/-- A body whose url field holds a string rejected by the url validator
fails the evidence schema parse. -/
theorem parseCreateEvidence_badUrl (b : CreateEvidenceBody) (u : String)
    (hu : b.url = some u) (hv : isValidUrl u = false) :
    parseCreateEvidence b = none := by
  unfold parseCreateEvidence
  rcases evidenceTypeOfString b.type with _ | t0
  · rfl
  · rw [hu]
    simp [hv]

/-- A url kept by a successful evidence schema parse passed the url
validator. -/
theorem parseCreateEvidence_url_valid (b : CreateEvidenceBody) (v : EvidenceData)
    (u : String) (h : parseCreateEvidence b = some v) (hu : v.url = some u) :
    isValidUrl u = true := by
  by_cases hval : isValidUrl u = true
  · exact hval
  · exfalso
    have hb : b.url = some u := by
      rw [← (parseCreateEvidence_fields b v h).1, hu]
    have hval' : isValidUrl u = false := by
      revert hval
      cases isValidUrl u <;> simp
    rw [parseCreateEvidence_badUrl b u hb hval'] at h
    cases h

/-- A detail read on a store where the TTFU is found reports that row's
status. -/
theorem detailStatus_of_found (s : Session) (tid : String) (db : DB) (t : TTFU)
    (h : findTTFU db tid = some t) :
    detailStatus (getTTFUDetail (some s) tid db) = some t.status := by
  simp only [getTTFUDetail, h, detailStatus]

/-! ## Claims -/

/-- Claim C8: a submit-review call never touches the TTFU table, so the
parent TTFU row (its status and every other field) is exactly the same
before and after the call, whatever the review decision and whatever the
outcome of the call. -/
theorem c8_review_leaves_ttfus_unchanged (session : Option Session)
    (evidenceId : String) (body : CreateReviewBody) (db : DB) :
    ((submitReview session evidenceId body db).2).ttfus = db.ttfus := by
  rcases session with _ | s
  · rfl
  rcases hp : parseCreateReview body with _ | v
  · simp [submitReview, hp]
  by_cases hrole : (s.globalRole != GlobalRole.REVIEWER
      && s.globalRole != GlobalRole.ADMIN) = true
  · simp [submitReview, hp, hrole]
  rcases he : findEvidence db evidenceId with _ | e
  · simp [submitReview, hp, hrole, he]
  rcases ht : findTTFU db e.ttfuId with _ | t
  · simp [submitReview, hp, hrole, he, ht]
  by_cases hrev : (t.reviewerId != s.userId
      && s.globalRole != GlobalRole.ADMIN) = true
  · simp [submitReview, hp, hrole, he, ht, hrev]
  rcases hx : findExistingReview db evidenceId s.userId with _ | r <;>
    simp [submitReview, hp, hrole, he, ht, hrev, hx]

/-- Claim C7: for an authenticated caller, updating an existing TTFU to any
status of the four-value enumeration succeeds, overwrites the stored
status, and the new status is what a subsequent detail read returns; a
status outside the enumeration fails with a validation error and an
unknown TTFU id fails with not-found, each leaving the store unchanged. -/
theorem c7_status_update_total (s : Session) (tid : String)
    (body : UpdateStatusBody) (db : DB) :
    (∀ (st : TtfuStatus) (t : TTFU),
      ttfuStatusOfString body.status = some st →
      findTTFU db tid = some t →
      updateTTFUStatus (some s) tid body db =
        (ApiResult.ok { t with status := st },
         { db with ttfus :=
             db.ttfus.map (fun u => if u.id == tid then { u with status := st } else u) }) ∧
      detailStatus (getTTFUDetail (some s) tid
        ((updateTTFUStatus (some s) tid body db).2)) = some st) ∧
    (ttfuStatusOfString body.status = none →
      updateTTFUStatus (some s) tid body db =
        (ApiResult.err ApiError.validationError, db)) ∧
    (∀ (st : TtfuStatus), ttfuStatusOfString body.status = some st →
      findTTFU db tid = none →
      updateTTFUStatus (some s) tid body db =
        (ApiResult.err ApiError.ttfuNotFound, db)) := by
  refine ⟨?_, ?_, ?_⟩
  · intro st t hst ht
    have hparse : parseUpdateStatus body = some { status := st, notes := body.notes } := by
      unfold parseUpdateStatus
      rw [hst]
    have hupd : updateTTFUStatus (some s) tid body db =
        (ApiResult.ok { t with status := st },
         { db with ttfus :=
             db.ttfus.map (fun u => if u.id == tid then { u with status := st } else u) }) := by
      simp [updateTTFUStatus, hparse, ht]
    refine ⟨hupd, ?_⟩
    rw [hupd]
    exact detailStatus_of_found s tid _ _ (findTTFU_after_update db tid st t ht)
  · intro hst
    have hparse : parseUpdateStatus body = none := by
      unfold parseUpdateStatus
      rw [hst]
    simp [updateTTFUStatus, hparse]
  · intro st hst ht
    have hparse : parseUpdateStatus body = some { status := st, notes := body.notes } := by
      unfold parseUpdateStatus
      rw [hst]
    simp [updateTTFUStatus, hparse, ht]

/-- Witness for claim C7: on the sample store, setting t1 to DONE is
reflected on the next read, a status outside the enumeration fails
validation, and an unknown id is not found. -/
theorem c7_status_update_total_witness :
    detailStatus (getTTFUDetail (some sessUser) "t1"
      ((updateTTFUStatus (some sessUser) "t1"
        { status := "DONE", notes := none } db0).2)) = some TtfuStatus.DONE ∧
    updateTTFUStatus (some sessUser) "t1"
      { status := "bogus", notes := none } db0 =
      (ApiResult.err ApiError.validationError, db0) ∧
    updateTTFUStatus (some sessUser) "missing"
      { status := "DONE", notes := none } db0 =
      (ApiResult.err ApiError.ttfuNotFound, db0) :=
  ⟨((c7_status_update_total sessUser "t1"
      { status := "DONE", notes := none } db0).1
      TtfuStatus.DONE sampleTTFU rfl rfl).2,
   (c7_status_update_total sessUser "t1"
      { status := "bogus", notes := none } db0).2.1 rfl,
   (c7_status_update_total sessUser "missing"
      { status := "DONE", notes := none } db0).2.2 TtfuStatus.DONE rfl rfl⟩

/-- Claim C6: a TTFU created by a REVIEWER- or ADMIN-role creator with no
assignee and no reviewer given gets the creator as both assignee and
reviewer. -/
theorem c6_reviewer_admin_self_assigned (s : Session) (body : CreateTTFUBody)
    (db : DB) (v : TTFUData) (cu : User)
    (hparse : parseCreateTTFU body = some v)
    (hcu : findUser db s.userId = some cu)
    (hrole : cu.globalRole = GlobalRole.REVIEWER ∨ cu.globalRole = GlobalRole.ADMIN)
    (ha : v.assigneeId = none) (hr : v.reviewerId = none)
    (hid : cu.id ≠ "") :
    createTTFU (some s) body db =
      (ApiResult.ok (mkTTFU db v cu.id cu.id),
       { db with ttfus := mkTTFU db v cu.id cu.id :: db.ttfus,
                 nextTime := db.nextTime + 1 }) ∧
    (mkTTFU db v cu.id cu.id).assigneeId = cu.id ∧
    (mkTTFU db v cu.id cu.id).reviewerId = cu.id := by
  have hspv : (cu.globalRole == GlobalRole.SPV
      || cu.globalRole == GlobalRole.USER) = false := by
    rcases hrole with h | h <;> simp [h]
  refine ⟨?_, rfl, rfl⟩
  simp [createTTFU, hparse, hcu, hspv, ha, hr, jsOr, jsTruthy, hid]

/-- Witness for claim C6: the ADMIN-role creator admin1 gets itself as both
assignee and reviewer. -/
theorem c6_reviewer_admin_self_assigned_witness :
    createTTFU (some sessAdmin) bodyPlainTTFU db0 =
      (ApiResult.ok (mkTTFU db0 plainTTFUData "admin1" "admin1"),
       { db0 with ttfus := mkTTFU db0 plainTTFUData "admin1" "admin1" :: db0.ttfus,
                  nextTime := db0.nextTime + 1 }) ∧
    (mkTTFU db0 plainTTFUData "admin1" "admin1").assigneeId = "admin1" ∧
    (mkTTFU db0 plainTTFUData "admin1" "admin1").reviewerId = "admin1" :=
  c6_reviewer_admin_self_assigned sessAdmin bodyPlainTTFU db0 plainTTFUData
    { id := "admin1", globalRole := GlobalRole.ADMIN }
    rfl rfl (Or.inr rfl) rfl rfl (by decide)

/-- The TTFU created by the C2 counterexample: the SPV creator ends up as
its own reviewer. -/
def ttfuSpvFallback : TTFU :=
  { id := "0", meetingId := "m1", title := "Follow up", description := none,
    assigneeId := "spv1", reviewerId := "spv1",
    status := TtfuStatus.OPEN, dueDate := none }

/-- Counterexample to claim C2 as stated: in a directory holding only the
SPV-role creator (so no REVIEWER- or ADMIN-role user exists), a creation
omitting assignee and reviewer succeeds and inserts a TTFU row instead of
failing with a validation error. -/
theorem c2_counterexample :
    (createTTFU (some sessSpv) bodyPlainTTFU dbOnlySpv).1 =
      ApiResult.ok ttfuSpvFallback ∧
    ((createTTFU (some sessSpv) bodyPlainTTFU dbOnlySpv).2).ttfus.length = 1 ∧
    findFirstReviewerOrAdmin dbOnlySpv = none :=
  ⟨rfl, rfl, rfl⟩

/-- Claim C2 (amended): when a SPV- or USER-role creator omits assignee and
reviewer and the directory holds no REVIEWER- or ADMIN-role user, the
creation does not fail: the TTFU is created with the creator as assignee
and, by fallback, as reviewer. -/
theorem c2_no_reviewer_creator_fallback (s : Session) (body : CreateTTFUBody)
    (db : DB) (v : TTFUData) (cu : User)
    (hparse : parseCreateTTFU body = some v)
    (hcu : findUser db s.userId = some cu)
    (hrole : cu.globalRole = GlobalRole.SPV ∨ cu.globalRole = GlobalRole.USER)
    (ha : v.assigneeId = none) (hr : v.reviewerId = none)
    (hid : cu.id ≠ "")
    (hnone : ∀ u ∈ db.users, isReviewerOrAdmin u = false) :
    createTTFU (some s) body db =
      (ApiResult.ok (mkTTFU db v cu.id cu.id),
       { db with ttfus := mkTTFU db v cu.id cu.id :: db.ttfus,
                 nextTime := db.nextTime + 1 }) ∧
    (mkTTFU db v cu.id cu.id).reviewerId = cu.id := by
  have hfr : findFirstReviewerOrAdmin db = none := by
    unfold findFirstReviewerOrAdmin
    rw [List.find?_eq_none]
    intro u hu
    simp [hnone u hu]
  have hspv : (cu.globalRole == GlobalRole.SPV
      || cu.globalRole == GlobalRole.USER) = true := by
    rcases hrole with h | h <;> simp [h]
  refine ⟨?_, rfl⟩
  simp [createTTFU, hparse, hcu, hspv, hfr, ha, hr, jsOr, jsTruthy, hid]

/-- Witness for claim C2 (amended form) on the one-user SPV directory. -/
theorem c2_no_reviewer_creator_fallback_witness :
    createTTFU (some sessSpv) bodyPlainTTFU dbOnlySpv =
      (ApiResult.ok (mkTTFU dbOnlySpv plainTTFUData "spv1" "spv1"),
       { dbOnlySpv with
           ttfus := mkTTFU dbOnlySpv plainTTFUData "spv1" "spv1" :: dbOnlySpv.ttfus,
           nextTime := dbOnlySpv.nextTime + 1 }) ∧
    (mkTTFU dbOnlySpv plainTTFUData "spv1" "spv1").reviewerId = "spv1" :=
  c2_no_reviewer_creator_fallback sessSpv bodyPlainTTFU dbOnlySpv plainTTFUData
    { id := "spv1", globalRole := GlobalRole.SPV }
    rfl rfl (Or.inl rfl) rfl rfl (by decide) (by decide)

/-- The TTFU created by the C5 counterexample: the USER-role creator ends
up as its own reviewer. -/
def ttfuUserFallback : TTFU :=
  { id := "0", meetingId := "m1", title := "Follow up", description := none,
    assigneeId := "user1", reviewerId := "user1",
    status := TtfuStatus.OPEN, dueDate := none }

/-- Counterexample to claim C5 as stated: with a USER-role creator and no
REVIEWER- or ADMIN-role user in the directory, the created TTFU's reviewer
is the creator, whose global role is USER — not a user with role reviewer
or admin. -/
theorem c5_counterexample :
    (createTTFU (some sessUser) bodyPlainTTFU dbOnlyUser).1 =
      ApiResult.ok ttfuUserFallback ∧
    ttfuUserFallback.reviewerId = "user1" ∧
    findUser dbOnlyUser "user1" =
      some { id := "user1", globalRole := GlobalRole.USER } ∧
    findFirstReviewerOrAdmin dbOnlyUser = none :=
  ⟨rfl, rfl, rfl, rfl⟩

/-- Claim C5 (amended): when a SPV- or USER-role creator omits assignee and
reviewer and the directory does hold a REVIEWER- or ADMIN-role user, the
creator becomes the assignee and the first such match of the lookup
becomes the reviewer. -/
theorem c5_auto_assignment_supervisor (s : Session) (body : CreateTTFUBody)
    (db : DB) (v : TTFUData) (cu : User) (w : User)
    (hparse : parseCreateTTFU body = some v)
    (hcu : findUser db s.userId = some cu)
    (hrole : cu.globalRole = GlobalRole.SPV ∨ cu.globalRole = GlobalRole.USER)
    (ha : v.assigneeId = none) (hr : v.reviewerId = none)
    (hid : cu.id ≠ "")
    (hw : findFirstReviewerOrAdmin db = some w)
    (hwid : w.id ≠ "") :
    w ∈ db.users ∧ isReviewerOrAdmin w = true ∧
    createTTFU (some s) body db =
      (ApiResult.ok (mkTTFU db v cu.id w.id),
       { db with ttfus := mkTTFU db v cu.id w.id :: db.ttfus,
                 nextTime := db.nextTime + 1 }) ∧
    (mkTTFU db v cu.id w.id).assigneeId = cu.id ∧
    (mkTTFU db v cu.id w.id).reviewerId = w.id := by
  have hspv : (cu.globalRole == GlobalRole.SPV
      || cu.globalRole == GlobalRole.USER) = true := by
    rcases hrole with h | h <;> simp [h]
  refine ⟨List.mem_of_find?_eq_some hw, List.find?_some hw, ?_, rfl, rfl⟩
  simp [createTTFU, hparse, hcu, hspv, hw, ha, hr, jsOr, jsTruthy, hid, hwid]

/-- Witness for claim C5 (amended form): on the sample store the SPV-role
creator is assigned and admin1, the first reviewer-or-admin in the
directory, becomes the reviewer. -/
theorem c5_auto_assignment_supervisor_witness :
    { id := "admin1", globalRole := GlobalRole.ADMIN } ∈ db0.users ∧
    isReviewerOrAdmin { id := "admin1", globalRole := GlobalRole.ADMIN } = true ∧
    createTTFU (some sessSpv) bodyPlainTTFU db0 =
      (ApiResult.ok (mkTTFU db0 plainTTFUData "spv1" "admin1"),
       { db0 with ttfus := mkTTFU db0 plainTTFUData "spv1" "admin1" :: db0.ttfus,
                  nextTime := db0.nextTime + 1 }) ∧
    (mkTTFU db0 plainTTFUData "spv1" "admin1").assigneeId = "spv1" ∧
    (mkTTFU db0 plainTTFUData "spv1" "admin1").reviewerId = "admin1" :=
  c5_auto_assignment_supervisor sessSpv bodyPlainTTFU db0 plainTTFUData
    { id := "spv1", globalRole := GlobalRole.SPV }
    { id := "admin1", globalRole := GlobalRole.ADMIN }
    rfl rfl (Or.inl rfl) rfl rfl (by decide) rfl (by decide)

/-- Counterexample to claim C3 as stated: a USER-role caller submitting a
review payload that fails schema validation receives the validation error,
not the authorization error, because the handler parses the body before
checking the role. -/
theorem c3_counterexample :
    (submitReview (some sessUser) "e1"
      { status := "bogus", comment := none } db0).1 =
      ApiResult.err ApiError.validationError ∧
    (submitReview (some sessUser) "e1"
      { status := "bogus", comment := none } db0).1 ≠
      ApiResult.err ApiError.onlyReviewersCanReview :=
  ⟨rfl, by decide⟩

/-- Claim C3 (amended): a submit-review call by a caller whose global role
is neither REVIEWER nor ADMIN is rejected with the authorization error
whenever the payload passes schema validation; a payload failing schema
validation is rejected with the validation error instead, since the
handler parses the body before the role check. -/
theorem c3_nonreviewer_rejected (s : Session) (evidenceId : String)
    (body : CreateReviewBody) (db : DB)
    (h1 : s.globalRole ≠ GlobalRole.REVIEWER)
    (h2 : s.globalRole ≠ GlobalRole.ADMIN) :
    (∀ v, parseCreateReview body = some v →
      submitReview (some s) evidenceId body db =
        (ApiResult.err ApiError.onlyReviewersCanReview, db)) ∧
    (parseCreateReview body = none →
      submitReview (some s) evidenceId body db =
        (ApiResult.err ApiError.validationError, db)) := by
  constructor
  · intro v hv
    simp [submitReview, hv, h1, h2]
  · intro hv
    simp [submitReview, hv]

/-- Witness for claim C3 (amended form): a USER-role caller with a valid
payload gets the authorization error; a SPV-role caller with an invalid
payload gets the validation error. -/
theorem c3_nonreviewer_rejected_witness :
    submitReview (some sessUser) "e1" bodyApproved db0 =
      (ApiResult.err ApiError.onlyReviewersCanReview, db0) ∧
    submitReview (some sessSpv) "e1"
      { status := "later", comment := none } db0 =
      (ApiResult.err ApiError.validationError, db0) :=
  ⟨(c3_nonreviewer_rejected sessUser "e1" bodyApproved db0
      (by decide) (by decide)).1
      { status := ReviewStatus.approved, comment := none } rfl,
   (c3_nonreviewer_rejected sessSpv "e1"
      { status := "later", comment := none } db0
      (by decide) (by decide)).2 rfl⟩

/-- A prior review by rev1 on e1, present in db1. -/
def sampleReview : Review :=
  { id := "r1", evidenceId := "e1", reviewerId := "rev1",
    status := ReviewStatus.approved, comment := none }

/-- Claim C1: when a review by the caller already exists on the evidence, a
second submit-review call by that same (authorized) reviewer is rejected
with the duplicate-review conflict error and the store is unchanged, so no
second review row is inserted; a call on the same evidence by an
authorized reviewer (the designated reviewer, or an admin) with no prior
review of theirs on it succeeds and appends a new review row. -/
theorem c1_one_review_per_reviewer :
    (∀ (s : Session) (eid : String) (body : CreateReviewBody) (db : DB)
        (v : ReviewData) (e : Evidence) (t : TTFU) (r0 : Review),
      parseCreateReview body = some v →
      (s.globalRole = GlobalRole.REVIEWER ∨ s.globalRole = GlobalRole.ADMIN) →
      findEvidence db eid = some e →
      findTTFU db e.ttfuId = some t →
      (t.reviewerId = s.userId ∨ s.globalRole = GlobalRole.ADMIN) →
      r0 ∈ db.reviews → r0.evidenceId = eid → r0.reviewerId = s.userId →
      submitReview (some s) eid body db =
        (ApiResult.err ApiError.alreadyReviewed, db)) ∧
    (∀ (s : Session) (eid : String) (body : CreateReviewBody) (db : DB)
        (v : ReviewData) (e : Evidence) (t : TTFU),
      parseCreateReview body = some v →
      (s.globalRole = GlobalRole.REVIEWER ∨ s.globalRole = GlobalRole.ADMIN) →
      findEvidence db eid = some e →
      findTTFU db e.ttfuId = some t →
      (t.reviewerId = s.userId ∨ s.globalRole = GlobalRole.ADMIN) →
      (∀ r ∈ db.reviews, ¬(r.evidenceId = eid ∧ r.reviewerId = s.userId)) →
      submitReview (some s) eid body db =
        (ApiResult.ok (mkReview db eid s.userId v),
         { db with reviews := mkReview db eid s.userId v :: db.reviews,
                   nextTime := db.nextTime + 1 }) ∧
      (mkReview db eid s.userId v).reviewerId = s.userId ∧
      (mkReview db eid s.userId v).evidenceId = eid) := by
  constructor
  · intro s eid body db v e t r0 hparse hrole he ht hrev hmem hre hrr
    have hsome : (findExistingReview db eid s.userId).isSome = true := by
      unfold findExistingReview
      rw [List.find?_isSome]
      exact ⟨r0, hmem, by simp [hre, hrr]⟩
    obtain ⟨r', hr'⟩ := Option.isSome_iff_exists.mp hsome
    have hrole1 : (s.globalRole != GlobalRole.REVIEWER
        && s.globalRole != GlobalRole.ADMIN) = false := by
      rcases hrole with h | h <;> simp [h]
    have hrev1 : (t.reviewerId != s.userId
        && s.globalRole != GlobalRole.ADMIN) = false := by
      rcases hrev with h | h <;> simp [h]
    simp [submitReview, hparse, hrole1, he, ht, hrev1, hr']
  · intro s eid body db v e t hparse hrole he ht hrev hfresh
    exact ⟨submitReview_ok s eid body db v e t hparse hrole he ht hrev hfresh,
      rfl, rfl⟩

/-- Witness for claim C1: on db1 (where rev1 already reviewed e1), a second
call by rev1 is rejected with the duplicate error, while admin1 reviewing
the same evidence succeeds. -/
theorem c1_one_review_per_reviewer_witness :
    submitReview (some sessRev) "e1" bodyApproved db1 =
      (ApiResult.err ApiError.alreadyReviewed, db1) ∧
    submitReview (some sessAdmin) "e1" bodyApproved db1 =
      (ApiResult.ok
        (mkReview db1 "e1" sessAdmin.userId
          { status := ReviewStatus.approved, comment := none }),
       { db1 with
           reviews := mkReview db1 "e1" sessAdmin.userId
             { status := ReviewStatus.approved, comment := none } :: db1.reviews,
           nextTime := db1.nextTime + 1 }) :=
  ⟨(c1_one_review_per_reviewer).1 sessRev "e1" bodyApproved db1
      { status := ReviewStatus.approved, comment := none }
      sampleEvidence sampleTTFU sampleReview
      rfl (Or.inl rfl) rfl rfl (Or.inl rfl) (by decide) rfl rfl,
   ((c1_one_review_per_reviewer).2 sessAdmin "e1" bodyApproved db1
      { status := ReviewStatus.approved, comment := none }
      sampleEvidence sampleTTFU
      rfl (Or.inr rfl) rfl rfl (Or.inr rfl) (by decide)).1⟩

/-- The body of the C4 counterexample: a link evidence that also carries a
file path. -/
def bodyLinkAndFile : CreateEvidenceBody :=
  { type := "link", url := some "https://example.com/doc",
    filePath := some "uploads/a.pdf", description := none }

/-- The evidence row created from bodyLinkAndFile on db0: both the url and
the file reference are populated. -/
def evidenceLinkAndFile : Evidence :=
  { id := "5", ttfuId := "t1", type := EvidenceType.link,
    url := some "https://example.com/doc", filePath := some "uploads/a.pdf",
    description := none, submittedById := "user1", createdAt := 5 }

/-- Counterexample to claim C4 as stated: a successful submission of kind
link that also supplies a file path stores both the url and the file
reference, so it is not the case that exactly one of the two fields is
populated. -/
theorem c4_counterexample :
    (submitEvidence (some sessUser) "t1" bodyLinkAndFile db0).1 =
      ApiResult.ok evidenceLinkAndFile ∧
    evidenceLinkAndFile.type = EvidenceType.link ∧
    evidenceLinkAndFile.url.isSome = true ∧
    evidenceLinkAndFile.filePath.isSome = true :=
  ⟨rfl, rfl, rfl, rfl⟩

/-- Claim C4 (amended): every evidence row produced by the submit-evidence
operation has the field matching its declared kind populated — url for
kind link, file reference for kind file; the other field is not forced
empty: it stores the value-or-null of whatever the request supplied for
it, so it is empty exactly when the request supplied no (nonempty) value. -/
theorem c4_evidence_kind_fields (session : Option Session) (ttfuId : String)
    (body : CreateEvidenceBody) (db : DB) (ev : Evidence) (db' : DB)
    (h : submitEvidence session ttfuId body db = (ApiResult.ok ev, db')) :
    (ev.type = EvidenceType.link → ev.url.isSome = true ∧
      ev.filePath = jsOrNull body.filePath) ∧
    (ev.type = EvidenceType.file → ev.filePath.isSome = true ∧
      ev.url = jsOrNull body.url) := by
  rcases session with _ | s
  · simp [submitEvidence] at h
  rcases hp : parseCreateEvidence body with _ | v
  · simp [submitEvidence, hp] at h
  rcases hf : findTTFU db ttfuId with _ | t
  · simp [submitEvidence, hp, hf] at h
  obtain ⟨hurl, hfp, -⟩ := parseCreateEvidence_fields body v hp
  by_cases h1 : (v.type == EvidenceType.link && !(jsTruthy v.url)) = true
  · simp [submitEvidence, hp, hf, h1] at h
  by_cases h2 : (v.type == EvidenceType.file && !(jsTruthy v.filePath)) = true
  · simp [submitEvidence, hp, hf, h1, h2] at h
  simp [submitEvidence, hp, hf, h1, h2, Prod.mk.injEq] at h
  obtain ⟨hev, hdb⟩ := h
  constructor
  · intro hlink
    have hvt : v.type = EvidenceType.link := by
      rw [← hev] at hlink
      simpa [mkEvidence] using hlink
    have htruthy : jsTruthy v.url = true := by
      rw [hvt] at h1
      simpa using h1
    refine ⟨?_, ?_⟩
    · rw [← hev]
      simpa [mkEvidence] using jsOrNull_isSome v.url htruthy
    · rw [← hev]
      simp [mkEvidence, hfp]
  · intro hfile
    have hvt : v.type = EvidenceType.file := by
      rw [← hev] at hfile
      simpa [mkEvidence] using hfile
    have htruthy : jsTruthy v.filePath = true := by
      rw [hvt] at h2
      simpa using h2
    refine ⟨?_, ?_⟩
    · rw [← hev]
      simpa [mkEvidence] using jsOrNull_isSome v.filePath htruthy
    · rw [← hev]
      simp [mkEvidence, hurl]

/-- The body of the C4 witness: a plain link evidence without a file
path. -/
def bodyLinkOnly : CreateEvidenceBody :=
  { type := "link", url := some "https://example.com/doc",
    filePath := none, description := none }

/-- The evidence row created from bodyLinkOnly on db0. -/
def evidenceLinkOnly : Evidence :=
  { id := "5", ttfuId := "t1", type := EvidenceType.link,
    url := some "https://example.com/doc", filePath := none,
    description := none, submittedById := "user1", createdAt := 5 }

/-- The store produced by the C4 witness submission. -/
def dbAfterLinkOnly : DB :=
  (submitEvidence (some sessUser) "t1" bodyLinkOnly db0).2

/-- Witness for claim C4 (amended form): a link submission with no file
path yields a populated url and an empty file reference. -/
theorem c4_evidence_kind_fields_witness :
    evidenceLinkOnly.url.isSome = true ∧
    evidenceLinkOnly.filePath = jsOrNull bodyLinkOnly.filePath :=
  (c4_evidence_kind_fields (some sessUser) "t1" bodyLinkOnly db0
    evidenceLinkOnly dbAfterLinkOnly rfl).1 rfl

/-- Claim C10: self-review is permitted — an authorized caller who is also
the submitter of the evidence under review, with no prior review of theirs
on it, has the submit-review call succeed; the handler never rejects a
review on the ground that the caller submitted the evidence. -/
theorem c10_self_review_allowed (s : Session) (eid : String)
    (body : CreateReviewBody) (db : DB) (v : ReviewData) (e : Evidence) (t : TTFU)
    (hparse : parseCreateReview body = some v)
    (hrole : s.globalRole = GlobalRole.REVIEWER ∨ s.globalRole = GlobalRole.ADMIN)
    (he : findEvidence db eid = some e)
    (hself : e.submittedById = s.userId)
    (ht : findTTFU db e.ttfuId = some t)
    (hrev : t.reviewerId = s.userId ∨ s.globalRole = GlobalRole.ADMIN)
    (hfresh : ∀ r ∈ db.reviews, ¬(r.evidenceId = eid ∧ r.reviewerId = s.userId)) :
    submitReview (some s) eid body db =
      (ApiResult.ok (mkReview db eid s.userId v),
       { db with reviews := mkReview db eid s.userId v :: db.reviews,
                 nextTime := db.nextTime + 1 }) ∧
    (mkReview db eid s.userId v).reviewerId = e.submittedById := by
  refine ⟨submitReview_ok s eid body db v e t hparse hrole he ht hrev hfresh, ?_⟩
  simp [mkReview, hself]

/-- A TTFU created by rev1 for itself: assignee and reviewer are both
rev1, as the auto-assignment produces for a REVIEWER-role creator. -/
def selfTTFU : TTFU :=
  { id := "t2", meetingId := "m1", title := "Self task", description := none,
    assigneeId := "rev1", reviewerId := "rev1",
    status := TtfuStatus.OPEN, dueDate := none }

/-- Evidence on selfTTFU submitted by rev1 itself. -/
def selfEvidence : Evidence :=
  { id := "e2", ttfuId := "t2", type := EvidenceType.link,
    url := some "https://example.com/self", filePath := none,
    description := none, submittedById := "rev1", createdAt := 2 }

/-- A store where rev1 is assignee, reviewer and evidence submitter of the
same TTFU. -/
def dbSelf : DB :=
  { users := sampleUsers, ttfus := [selfTTFU],
    evidences := [selfEvidence], reviews := [], nextTime := 7 }

/-- Witness for claim C10: rev1 successfully reviews the evidence it
submitted itself on the TTFU where it is also the designated reviewer. -/
theorem c10_self_review_allowed_witness :
    submitReview (some sessRev) "e2" bodyApproved dbSelf =
      (ApiResult.ok
        (mkReview dbSelf "e2" sessRev.userId
          { status := ReviewStatus.approved, comment := none }),
       { dbSelf with
           reviews := mkReview dbSelf "e2" sessRev.userId
             { status := ReviewStatus.approved, comment := none } :: dbSelf.reviews,
           nextTime := dbSelf.nextTime + 1 }) ∧
    (mkReview dbSelf "e2" sessRev.userId
      { status := ReviewStatus.approved, comment := none }).reviewerId =
      selfEvidence.submittedById :=
  c10_self_review_allowed sessRev "e2" bodyApproved dbSelf
    { status := ReviewStatus.approved, comment := none }
    selfEvidence selfTTFU
    rfl (Or.inl rfl) rfl rfl rfl (Or.inl rfl) (by decide)

/-- Claim C9: submitting link evidence with a malformed url fails schema
validation and leaves the store unchanged; with a well-formed url and an
existing parent TTFU the call succeeds, appends an evidence row attributed
to the caller, and that row is the head of the TTFU's newest-first
evidence list on the next detail read; with an unknown parent TTFU (and a
parseable body) the call fails with not-found and leaves the store
unchanged. -/
theorem c9_link_evidence_lifecycle (s : Session) (tid : String)
    (body : CreateEvidenceBody) (db : DB) :
    (∀ u, body.url = some u → isValidUrl u = false →
      submitEvidence (some s) tid body db =
        (ApiResult.err ApiError.validationError, db)) ∧
    (∀ (v : EvidenceData) (u : String) (t : TTFU),
      parseCreateEvidence body = some v →
      v.type = EvidenceType.link →
      v.url = some u →
      findTTFU db tid = some t →
      (∀ e0 ∈ db.evidences, e0.createdAt < db.nextTime) →
      submitEvidence (some s) tid body db =
        (ApiResult.ok (mkEvidence db tid s.userId v),
         { db with evidences := mkEvidence db tid s.userId v :: db.evidences,
                   nextTime := db.nextTime + 1 }) ∧
      (mkEvidence db tid s.userId v).submittedById = s.userId ∧
      (mkEvidence db tid s.userId v).url = some u ∧
      (detailEvidences (getTTFUDetail (some s) tid
        ((submitEvidence (some s) tid body db).2))).head? =
        some (mkEvidence db tid s.userId v)) ∧
    (∀ v, parseCreateEvidence body = some v → findTTFU db tid = none →
      submitEvidence (some s) tid body db =
        (ApiResult.err ApiError.ttfuNotFound, db)) := by
  refine ⟨?_, ?_, ?_⟩
  · intro u hu hbad
    have hp : parseCreateEvidence body = none :=
      parseCreateEvidence_badUrl body u hu hbad
    simp [submitEvidence, hp]
  · intro v u t hp hlink hurl hft hfresh
    have hval : isValidUrl u = true := parseCreateEvidence_url_valid body v u hp hurl
    have hne : u ≠ "" := isValidUrl_ne_empty u hval
    have htr : jsTruthy v.url = true := by
      rw [hurl]
      simpa [jsTruthy] using hne
    have hg1 : (v.type == EvidenceType.link && !(jsTruthy v.url)) = false := by
      simp [htr]
    have hg2 : (v.type == EvidenceType.file && !(jsTruthy v.filePath)) = false := by
      simp [hlink]
    have hsub : submitEvidence (some s) tid body db =
        (ApiResult.ok (mkEvidence db tid s.userId v),
         { db with evidences := mkEvidence db tid s.userId v :: db.evidences,
                   nextTime := db.nextTime + 1 }) := by
      simp [submitEvidence, hp, hft, hg1, hg2]
    refine ⟨hsub, rfl, ?_, ?_⟩
    · rw [← hurl]
      simp [mkEvidence, jsOrNull, htr]
    · rw [hsub]
      have hft' : findTTFU
          { db with evidences := mkEvidence db tid s.userId v :: db.evidences,
                    nextTime := db.nextTime + 1 } tid = some t := hft
      simp only [getTTFUDetail, hft', detailEvidences]
      have hfilter : List.filter (fun e => e.ttfuId == tid)
          (mkEvidence db tid s.userId v :: db.evidences) =
          mkEvidence db tid s.userId v ::
            List.filter (fun e => e.ttfuId == tid) db.evidences := by
        simp [mkEvidence, List.filter_cons]
      have hnewest : ∀ y ∈ List.filter (fun e => e.ttfuId == tid) db.evidences,
          newerFirst (mkEvidence db tid s.userId v) y := by
        intro y hy
        have hmem := List.mem_of_mem_filter hy
        have hlt := hfresh y hmem
        show y.createdAt ≤ (mkEvidence db tid s.userId v).createdAt
        simpa [mkEvidence] using Nat.le_of_lt hlt
      rw [hfilter, insertionSort_newest _ _ hnewest]
      rfl
  · intro v hp hft
    simp [submitEvidence, hp, hft]

/-- A link body with a malformed url. -/
def bodyBadUrl : CreateEvidenceBody :=
  { type := "link", url := some "not a url", filePath := none,
    description := none }

/-- The parsed form of bodyLinkOnly. -/
def evidenceDataLinkOnly : EvidenceData :=
  { type := EvidenceType.link, url := some "https://example.com/doc",
    filePath := none, description := none }

/-- Witness for claim C9: on the sample store, the malformed url is
rejected, a well-formed link submission lands at the head of the
newest-first evidence list of the next detail read, and an unknown TTFU id
is not found. -/
theorem c9_link_evidence_lifecycle_witness :
    submitEvidence (some sessUser) "t1" bodyBadUrl db0 =
      (ApiResult.err ApiError.validationError, db0) ∧
    (detailEvidences (getTTFUDetail (some sessUser) "t1"
      ((submitEvidence (some sessUser) "t1" bodyLinkOnly db0).2))).head? =
      some (mkEvidence db0 "t1" sessUser.userId evidenceDataLinkOnly) ∧
    submitEvidence (some sessUser) "missing" bodyLinkOnly db0 =
      (ApiResult.err ApiError.ttfuNotFound, db0) :=
  ⟨(c9_link_evidence_lifecycle sessUser "t1" bodyBadUrl db0).1
      "not a url" rfl rfl,
   ((c9_link_evidence_lifecycle sessUser "t1" bodyLinkOnly db0).2.1
      evidenceDataLinkOnly "https://example.com/doc" sampleTTFU
      rfl rfl rfl rfl (by decide)).2.2.2,
   (c9_link_evidence_lifecycle sessUser "missing" bodyLinkOnly db0).2.2
      evidenceDataLinkOnly rfl rfl⟩

end Whispero
